import Mathlib

/-!
Verification development for the fake I2C bus provisioner
(`implementacao/fake_devices/fake_interfaces/fake_i2c.py`).

The Python class `FakeI2cBus` provisions a kernel `i2c-stub` bus: it shells
out to `modprobe`/`i2cdetect`, parses the enumeration output, and maintains a
symbolic link `/dev/i2c-<logical>` to the discovered real stub bus node.

The shallow embedding below models:
- the Python string primitives the code uses (`split`, `strip`, `in`,
  `int`, `hex`, `join`) as executable functions on `String`/`List Char`;
- the host as an oracle `Env` mapping each shell command string to its
  result, plus an association-list filesystem of nodes and symbolic links;
- each method of `FakeI2cBus` as an explicit state-passing function whose
  failure mode is `Except PyError`.

A world value `W` also records the `trace` of shell commands issued, so that
ordering properties ("the unload is issued before the load") are observable.
-/

/-- Python whitespace characters, as recognized by `str.split()` with no
argument and by `str.strip()` with no argument (ASCII fragment). -/
def pyIsSpace (c : Char) : Bool :=
  c = ' ' || c = '\t' || c = '\n' || c = '\r' || c = '\x0b' || c = '\x0c'

/-- Split a character list at every occurrence of a one-character separator,
keeping empty pieces: model of Python `str.split(sep)`. -/
def splitCh (sep : Char) : List Char → List (List Char)
  | [] => [[]]
  | c :: cs =>
    match splitCh sep cs with
    | [] => [[]]
    | g :: gs => if c = sep then [] :: g :: gs else (c :: g) :: gs

/-- Model of Python `s.split('\n')`, as applied to the enumeration output. -/
def pySplitNl (s : String) : List String :=
  (splitCh '\n' s.data).map fun l => String.mk l

def listPrefixOf : List Char → List Char → Bool
  | [], _ => true
  | _ :: _, [] => false
  | a :: as, b :: bs => a = b && listPrefixOf as bs

def listContains (sub : List Char) : List Char → Bool
  | [] => listPrefixOf sub []
  | c :: cs => listPrefixOf sub (c :: cs) || listContains sub cs

/-- Model of the Python substring test `sub in s`. -/
def pyIn (sub s : String) : Bool := listContains sub.data s.data

/-- Accumulator-based splitter on whitespace runs; empties are dropped.
This models Python `str.split()` with no argument. -/
def splitWSAux : List Char → List Char → List (List Char)
  | acc, [] => match acc with | [] => [] | _ => [acc.reverse]
  | acc, c :: cs =>
    if pyIsSpace c then
      match acc with
      | [] => splitWSAux [] cs
      | _ => acc.reverse :: splitWSAux [] cs
    else splitWSAux (c :: acc) cs

/-- Model of Python `line.split()` (split on whitespace, dropping empties). -/
def pySplitWS (s : String) : List String :=
  (splitWSAux [] s.data).map fun l => String.mk l

/-- Model of Python `s.strip(chars)`: remove from both ends every character
that belongs to the character set `chars` (not the literal prefix/suffix
string — this is the actual semantics of `str.strip`). -/
def pyStrip (s : String) (chars : String) : String :=
  String.mk (((s.data.dropWhile fun c => chars.data.contains c).reverse.dropWhile
    fun c => chars.data.contains c).reverse)

def digitsValAux : Nat → List Char → Option Nat
  | acc, [] => some acc
  | acc, c :: cs =>
    if c.isDigit then digitsValAux (acc * 10 + (c.toNat - 48)) cs else none

/-- Value of a nonempty all-digit character run (decimal). -/
def digitsVal : List Char → Option Nat
  | [] => none
  | c :: cs => digitsValAux 0 (c :: cs)

/-- Model of Python `int(s)` on decimal strings: surrounding whitespace is
allowed, then an optional sign and a nonempty digit run (Python's underscore
grouping is not modelled; no input in this development contains one).
`none` models the `ValueError` raised on anything else. -/
def pyInt (s : String) : Option Int :=
  match ((s.data.dropWhile pyIsSpace).reverse.dropWhile pyIsSpace).reverse with
  | '-' :: ds => (digitsVal ds).map fun n => -(n : Int)
  | '+' :: ds => (digitsVal ds).map fun n => (n : Int)
  | ds => (digitsVal ds).map fun n => (n : Int)

/-- Lowercase hexadecimal digit character for `n < 16`. -/
def hexDigitChar (n : Nat) : Char :=
  if n < 10 then Char.ofNat (48 + n) else Char.ofNat (87 + n)

/-- Fuelled most-significant-first hexadecimal digit expansion. -/
def hexDigitsAux : Nat → Nat → List Char
  | 0, _ => []
  | fuel + 1, n =>
    if n < 16 then [hexDigitChar n]
    else hexDigitsAux fuel (n / 16) ++ [hexDigitChar (n % 16)]

/-- Model of Python `hex(n)` for a nonnegative `n` (device addresses). -/
def pyHex (n : Nat) : String := "0x" ++ String.mk (hexDigitsAux (n + 1) n)

/-- Model of Python `','.join(l)`. -/
def joinC : List String → String
  | [] => ""
  | [s] => s
  | s :: rest => s ++ "," ++ joinC rest

/-- Model of Python `str(x)` where `x` is an optional integer attribute
(`str(None)` is the string `"None"`). -/
def pyStrOptInt : Option Int → String
  | none => "None"
  | some n => toString n

/-- Result of one shell command: model of `subprocess.run` with captured
pipes. -/
structure CmdResult where
  returncode : Int
  stdout : String
  stderr : String
deriving DecidableEq

/-- The host shell oracle: each command string is mapped to the result its
(single) execution produces during the run being modelled. -/
abbrev Env := String → CmdResult

/-- A filesystem entry at a path: an existing node (device node or regular
file), or a symbolic link with a stored target string. -/
inductive FsEntry where
  | node
  | symlink (target : String)
deriving DecidableEq

/-- The filesystem: an association list from paths to entries. -/
abbrev Fs := List (String × FsEntry)

def fsLookup : Fs → String → Option FsEntry
  | [], _ => none
  | (q, e) :: rest, p => if q = p then some e else fsLookup rest p

def fsRemove : Fs → String → Fs
  | [], _ => []
  | (q, e) :: rest, p =>
    if q = p then fsRemove rest p else (q, e) :: fsRemove rest p

/-- Model of `os.path.islink` (an `lstat`-style probe: does not follow). -/
def osIslink (fs : Fs) (p : String) : Bool :=
  match fsLookup fs p with
  | some (.symlink _) => true
  | _ => false

/-- Model of `os.readlink`: target of a symbolic link, `none` otherwise. -/
def osReadlink (fs : Fs) (p : String) : Option String :=
  match fsLookup fs p with
  | some (.symlink t) => some t
  | _ => none

def resolveExists (fs : Fs) : Nat → String → Bool
  | 0, _ => false
  | fuel + 1, p =>
    match fsLookup fs p with
    | none => false
    | some .node => true
    | some (.symlink t) => resolveExists fs fuel t

/-- Model of `os.path.exists`: the path resolves, following symbolic links,
to an existing node (a link cycle resolves to `false`, as `ELOOP` does). -/
def osPathExists (fs : Fs) (p : String) : Bool :=
  resolveExists fs (fs.length + 1) p

/-- Model of `os.unlink`: remove the entry at `p`; `none` models `OSError`
when nothing is there. -/
def osUnlink (fs : Fs) (p : String) : Option Fs :=
  if (fsLookup fs p).isSome then some (fsRemove fs p) else none

/-- Model of `os.symlink target linkpath`: create a link entry; `none`
models `FileExistsError` when something already sits at `linkpath`. -/
def osSymlink (fs : Fs) (target linkpath : String) : Option Fs :=
  if (fsLookup fs linkpath).isSome then none
  else some ((linkpath, FsEntry.symlink target) :: fs)

/-- The mutable world: the filesystem, plus the ordered trace of shell
commands issued so far (the trace is an observation artifact of the model:
it lets ordering claims about command issuance be stated). -/
structure W where
  fs : Fs
  trace : List String
deriving DecidableEq

def pushTrace (w : W) (cmd : String) : W :=
  { w with trace := w.trace ++ [cmd] }

/-- The Python exceptions that can escape the methods being modelled. -/
inductive PyError where
  | fakeI2c (msg : String)
  | valueError (msg : String)
  | osError (msg : String)
  | typeError (msg : String)
  | indexError (msg : String)
deriving DecidableEq

/-- The instance attributes of `FakeI2cBus` (double-underscore privates),
plus `fd`, the transport file descriptor inherited from `smbus2.SMBus`
(modelled as the path that was opened). -/
structure BusState where
  bus : Option Int
  real_bus : Option Int
  bus_link : Option String
  real_bus_path : Option String
  devices_list : Option (List Nat)
  fd : Option String
deriving DecidableEq

/-- The state after `__init__()` with no bus requested. -/
def initBus : BusState :=
  { bus := none, real_bus := none, bus_link := none, real_bus_path := none
    devices_list := none, fd := none }

/-- A single-quote character, used in the exception message format. -/
def q27 : String := "\x27"

/-- The message built by `__run_cmd_raise_exception` on a nonzero exit:
`Cannot run command has the command text, the exit status and stderr`. -/
def cmdFailMsg (cmd : String) (rc : Int) (err : String) : String :=
  "Cannot run command " ++ q27 ++ cmd ++ q27 ++ ". Shell returns: [" ++
    toString rc ++ "] - " ++ err

/-- Model of `__run_cmd`: run a shell command, returning
`(returncode, stdout, stderr)` and recording the command in the trace. -/
def shellRun (env : Env) (w : W) (cmd : String) : (Int × String × String) × W :=
  (((env cmd).returncode, (env cmd).stdout, (env cmd).stderr), pushTrace w cmd)

/-- Model of `__run_cmd_raise_exception`: as `shellRun`, but a nonzero exit
status raises `FakeI2cException` with the command, status and stderr. -/
def shellRunRaise (env : Env) (w : W) (cmd : String) :
    Except PyError (Int × String) × W :=
  if (env cmd).returncode ≠ 0 then
    (.error (.fakeI2c
        (cmdFailMsg cmd (env cmd).returncode (env cmd).stderr)),
      pushTrace w cmd)
  else (.ok ((env cmd).returncode, (env cmd).stdout), pushTrace w cmd)

/-- Model of Python `repr(e)` for the exceptions that the alias-creation
handler can wrap (the exact rendering is Python's; only its shape matters
here, no claim depends on it). -/
def pyReprE : PyError → String
  | .fakeI2c m => "FakeI2cException(" ++ q27 ++ m ++ q27 ++ ")"
  | .valueError m => "ValueError(" ++ q27 ++ m ++ q27 ++ ")"
  | .osError m => "OSError(" ++ q27 ++ m ++ q27 ++ ")"
  | .typeError m => "TypeError(" ++ q27 ++ m ++ q27 ++ ")"
  | .indexError m => "IndexError(" ++ q27 ++ m ++ q27 ++ ")"

/-- The `chip_addr` joined address list from `__add_fake_devices`:
`','.join(map(hex, devices_list))`. -/
def listAddr (ds : List Nat) : String := joinC (ds.map pyHex)

/-- The stub module-load command built in `__add_fake_devices`. -/
def stubLoadCmd (ds : List Nat) : String :=
  "modprobe i2c-stub chip_addr=" ++ listAddr ds

/-- The part of the `__symlink_i2c_stub` try-block from the assignment of
`real_bus_path` on: set the target, and create the link when the alias path
is not (any longer) a symbolic link. Errors here are caught by the
enclosing handler. -/
def aliasMake (fs : Fs) (link : String) (tok : String) :
    Except PyError String × Fs :=
  if osIslink fs link then (.ok ("/dev/" ++ tok), fs)
  else
    match osSymlink fs ("/dev/" ++ tok) link with
    | some fs2 => (.ok ("/dev/" ++ tok), fs2)
    | none => (.error (.osError ("File exists: " ++ link)), fs)

/-- The whole try-block of `__symlink_i2c_stub`: first delete the alias when
it is a dangling symbolic link, then `aliasMake`. -/
def aliasTry (fs : Fs) (link : String) (tok : String) :
    Except PyError String × Fs :=
  if osIslink fs link then
    match osReadlink fs link with
    | some tgt =>
      if osPathExists fs tgt then aliasMake fs link tok
      else
        match osUnlink fs link with
        | some fs2 => aliasMake fs2 link tok
        | none => (.error (.osError ("unlink: " ++ link)), fs)
    | none => (.error (.osError ("readlink: " ++ link)), fs)
  else aliasMake fs link tok

/-- Model of `__symlink_i2c_stub`: enumerate buses with `i2cdetect -l`, find
the first line containing the marker `SMBus stub driver`, parse the bus
number out of its first whitespace token with `int(tok.strip('i2c-'))`,
then create `/dev/i2c-<bus>` as a symbolic link to the discovered node. -/
def symlink_i2c_stub (env : Env) (st : BusState) (w : W) :
    Except PyError Unit × BusState × W :=
  match shellRunRaise env w "i2cdetect -l" with
  | (.error e, w1) => (.error e, st, w1)
  | (.ok out, w1) =>
    match List.find? (fun l => pyIn "SMBus stub driver" l) (pySplitNl out.2) with
    | none => (.error (.fakeI2c "SMBus stub driver not found"), st, w1)
    | some line =>
      match pySplitWS line with
      | [] => (.error (.indexError "list index out of range"), st, w1)
      | tok :: _ =>
        match pyInt (pyStrip tok "i2c-") with
        | none =>
          (.error (.valueError ("invalid literal for int with base 10: " ++
              q27 ++ pyStrip tok "i2c-" ++ q27)), st, w1)
        | some rb =>
          let st1 : BusState := { st with real_bus := some rb }
          let link : String := "/dev/i2c-" ++ pyStrOptInt st1.bus
          let st2 : BusState := { st1 with bus_link := some link }
          match aliasTry w1.fs link tok with
          | (.error e, fs2) =>
            (.error (.fakeI2c ("Cannot create fake i2c symlink: " ++ pyReprE e)),
              st2, { w1 with fs := fs2 })
          | (.ok rbp, fs2) =>
            (.ok (), { st2 with real_bus_path := some rbp }, { w1 with fs := fs2 })

/-- Model of `__add_fake_devices`: load `i2c-dev`, force-unload `i2c-stub`,
load `i2c-stub` with the `chip_addr` list, then `__symlink_i2c_stub`. Each
command goes through `__run_cmd_raise_exception`. -/
def add_fake_devices (env : Env) (st : BusState) (w : W) (ds : List Nat) :
    Except PyError Unit × BusState × W :=
  match shellRunRaise env w "modprobe i2c-dev" with
  | (.error e, w1) => (.error e, st, w1)
  | (.ok _, w1) =>
    match shellRunRaise env w1 "modprobe -r i2c-stub" with
    | (.error e, w2) => (.error e, st, w2)
    | (.ok _, w2) =>
      match shellRunRaise env w2 (stubLoadCmd ds) with
      | (.error e, w3) => (.error e, st, w3)
      | (.ok _, w3) => symlink_i2c_stub env st w3

/-- Model of `smbus2.SMBus.open(bus)`: `os.open` of the device node for the
given bus number; succeeds when the node exists (resolving links). -/
def smbus_open (st : BusState) (w : W) : Except PyError Unit × BusState × W :=
  if osPathExists w.fs ("/dev/i2c-" ++ pyStrOptInt st.real_bus) then
    (.ok (), { st with fd := some ("/dev/i2c-" ++ pyStrOptInt st.real_bus) }, w)
  else
    (.error (.osError ("No such file or directory: " ++
        "/dev/i2c-" ++ pyStrOptInt st.real_bus)), st, w)

/-- Model of `FakeI2cBus.open(bus, devices_list)`. -/
def pyOpen (env : Env) (st : BusState) (w : W) (bus : Int) (ds : List Nat) :
    Except PyError Unit × BusState × W :=
  let st0 : BusState := { st with bus := some bus, devices_list := some ds }
  match add_fake_devices env st0 w ds with
  | (.error e, st1, w1) => (.error e, st1, w1)
  | (.ok _, st1, w1) => smbus_open st1 w1

/-- Model of `smbus2.SMBus.close()`: release the descriptor if one is held.
`os.close` of a valid descriptor is modelled as infallible; the transport
library is external to the repository and opaque beyond open/close. -/
def smbus_close (st : BusState) : BusState := { st with fd := none }

/-- The try-block body of `__del_fake_devices`, before its handler:
`__run_cmd('modprobe -r i2c-stub')` then `os.unlink(bus_link)`. Passing
`None` to `os.unlink` raises `TypeError`; unlinking a missing path raises
`OSError`. -/
def del_fake_devices_try (env : Env) (st : BusState) (w : W) :
    Except PyError Unit × BusState × W :=
  let w1 := (shellRun env w "modprobe -r i2c-stub").2
  match st.bus_link with
  | none => (.error (.typeError "unlink: path should be str, not None"), st, w1)
  | some l =>
    match osUnlink w1.fs l with
    | none => (.error (.osError ("unlink: " ++ l)), st, w1)
    | some fs2 => (.ok (), st, { w1 with fs := fs2 })

/-- Model of `__del_fake_devices`: the bare `except` discards any failure of
the body. -/
def del_fake_devices (env : Env) (st : BusState) (w : W) : BusState × W :=
  match del_fake_devices_try env st w with
  | (.error _, st1, w1) => (st1, w1)
  | (.ok _, st1, w1) => (st1, w1)

/-- Model of `FakeI2cBus.close()`: transport close, then best-effort
teardown. -/
def pyClose (env : Env) (st : BusState) (w : W) : BusState × W :=
  del_fake_devices env (smbus_close st) w

/-- Accessor `bus_path()`: the alias path, or the empty string while the
attribute is unset (Python truthiness: `None` and `''` both yield `''`). -/
def pyBusPath (st : BusState) : String :=
  match st.bus_link with
  | some s => if s = "" then "" else s
  | none => ""

/-- Accessor `real_bus_path()`: same truthiness pattern as `bus_path()`. -/
def pyRealBusPath (st : BusState) : String :=
  match st.real_bus_path with
  | some s => if s = "" then "" else s
  | none => ""

/-- Accessor `real_bus()`. -/
def pyRealBus (st : BusState) : Option Int := st.real_bus

/-- Accessor `bus()`. -/
def pyBus (st : BusState) : Option Int := st.bus

instance : DecidableEq (Except PyError Unit) := fun a b =>
  match a, b with
  | .ok (), .ok () => .isTrue rfl
  | .error x, .error y =>
    if h : x = y then .isTrue (by rw [h])
    else .isFalse (fun hh => h (by injection hh))
  | .ok _, .error _ => .isFalse (fun hh => by injection hh)
  | .error _, .ok _ => .isFalse (fun hh => by injection hh)

/-! ### General lemmas about the model -/

theorem pushTrace_fs (w : W) (c : String) : (pushTrace w c).fs = w.fs := rfl

theorem shellRunRaise_zero (env : Env) (w : W) (c : String)
    (h : (env c).returncode = 0) :
    shellRunRaise env w c = (.ok (0, (env c).stdout), pushTrace w c) := by
  simp [shellRunRaise, h]

theorem shellRunRaise_fail (env : Env) (w : W) (c : String)
    (h : (env c).returncode ≠ 0) :
    shellRunRaise env w c =
      (.error (.fakeI2c (cmdFailMsg c (env c).returncode (env c).stderr)),
        pushTrace w c) := by
  simp [shellRunRaise, h]

theorem shellRunRaise_world (env : Env) (w : W) (c : String) :
    (shellRunRaise env w c).2 = pushTrace w c := by
  unfold shellRunRaise; split <;> rfl

theorem fsLookup_fsRemove_self (fs : Fs) (p : String) :
    fsLookup (fsRemove fs p) p = none := by
  induction fs with
  | nil => rfl
  | cons e rest ih =>
    obtain ⟨q, en⟩ := e
    by_cases h : q = p
    · simp [fsRemove, h, ih]
    · simp [fsRemove, fsLookup, h, ih]

theorem smbus_open_world (st : BusState) (w : W) :
    (smbus_open st w).2.2 = w := by
  unfold smbus_open; split <;> rfl

/-- Unfolding `__add_fake_devices` when the three module commands exit 0. -/
theorem add_fake_good (env : Env) (st : BusState) (w : W) (ds : List Nat)
    (h1 : (env "modprobe i2c-dev").returncode = 0)
    (h2 : (env "modprobe -r i2c-stub").returncode = 0)
    (h3 : (env (stubLoadCmd ds)).returncode = 0) :
    add_fake_devices env st w ds =
      symlink_i2c_stub env st
        (pushTrace (pushTrace (pushTrace w "modprobe i2c-dev")
          "modprobe -r i2c-stub") (stubLoadCmd ds)) := by
  simp [add_fake_devices, shellRunRaise, h1, h2, h3]

/-- Unfolding `__symlink_i2c_stub` when the enumeration command exits 0 and
discovery finds a parsable first token. -/
theorem symlink_found (env : Env) (st : BusState) (w : W)
    (line tok : String) (rest : List String) (rb : Int)
    (h4 : (env "i2cdetect -l").returncode = 0)
    (hfind : List.find? (fun l => pyIn "SMBus stub driver" l)
      (pySplitNl (env "i2cdetect -l").stdout) = some line)
    (htok : pySplitWS line = tok :: rest)
    (hparse : pyInt (pyStrip tok "i2c-") = some rb) :
    symlink_i2c_stub env st w =
      (match aliasTry w.fs ("/dev/i2c-" ++ pyStrOptInt st.bus) tok with
       | (.error e, fs2) =>
         (.error (.fakeI2c ("Cannot create fake i2c symlink: " ++ pyReprE e)),
           { st with real_bus := some rb,
                     bus_link := some ("/dev/i2c-" ++ pyStrOptInt st.bus) },
           ⟨fs2, w.trace ++ ["i2cdetect -l"]⟩)
       | (.ok rbp, fs2) =>
         (.ok (),
           { st with real_bus := some rb,
                     bus_link := some ("/dev/i2c-" ++ pyStrOptInt st.bus),
                     real_bus_path := some rbp },
           ⟨fs2, w.trace ++ ["i2cdetect -l"]⟩)) := by
  unfold symlink_i2c_stub
  rw [shellRunRaise_zero env w _ h4]
  simp only [hfind, htok, hparse]
  rfl

/-- Unfolding `__symlink_i2c_stub` when the enumeration output has no line
containing the stub-driver marker. -/
theorem symlink_not_found (env : Env) (st : BusState) (w : W)
    (h4 : (env "i2cdetect -l").returncode = 0)
    (hnone : List.find? (fun l => pyIn "SMBus stub driver" l)
      (pySplitNl (env "i2cdetect -l").stdout) = none) :
    symlink_i2c_stub env st w =
      (.error (.fakeI2c "SMBus stub driver not found"), st,
        pushTrace w "i2cdetect -l") := by
  unfold symlink_i2c_stub
  rw [shellRunRaise_zero env w _ h4]
  simp only [hnone]

/-- The alias try-block when nothing sits at the alias path: a fresh link
is created. -/
theorem aliasTry_none (fs : Fs) (link tok : String)
    (h : fsLookup fs link = none) :
    aliasTry fs link tok =
      (.ok ("/dev/" ++ tok), (link, FsEntry.symlink ("/dev/" ++ tok)) :: fs) := by
  unfold aliasTry aliasMake osIslink osSymlink
  simp [h]

/-- The alias try-block when the alias path is a symbolic link whose target
exists: nothing is changed. -/
theorem aliasTry_valid (fs : Fs) (link tok tgt : String)
    (h : fsLookup fs link = some (.symlink tgt))
    (hx : osPathExists fs tgt = true) :
    aliasTry fs link tok = (.ok ("/dev/" ++ tok), fs) := by
  unfold aliasTry aliasMake osIslink osReadlink
  simp [h, hx]

/-- The alias try-block when the alias path is a dangling symbolic link: the
stale link is removed, then the fresh link is created. -/
theorem aliasTry_dangling (fs : Fs) (link tok tgt : String)
    (h : fsLookup fs link = some (.symlink tgt))
    (hx : osPathExists fs tgt = false) :
    aliasTry fs link tok =
      (.ok ("/dev/" ++ tok),
        (link, FsEntry.symlink ("/dev/" ++ tok)) :: fsRemove fs link) := by
  unfold aliasTry aliasMake osIslink osReadlink osUnlink osSymlink
  simp [h, hx, fsLookup_fsRemove_self]

/-- A string beginning with the bus-node prefix is never empty. -/
theorem devPrefixed_ne_empty (a s : String) (c : Char) (cs : List Char)
    (ha : a.data = c :: cs) : a ++ s ≠ "" := by
  intro h
  have hd := congrArg String.data h
  rw [String.data_append, ha] at hd
  simp at hd

/-! ### Concrete host fixtures -/

/-- A host shell on which every command exits 0 and the bus enumeration
prints `out`. -/
def mkEnv (out : String) : Env := fun c =>
  if c = "i2cdetect -l" then { returncode := 0, stdout := out, stderr := "" }
  else { returncode := 0, stdout := "", stderr := "" }

/-- Enumeration output with the stub bus at index 7 (second line). -/
def outStub7 : String :=
  "i2c-0\tsmbus \tIntel adapter at e000\ni2c-7\tsmbus \tSMBus stub driver\tN/A\n"

/-- Enumeration output with the stub bus at index 12. -/
def outStub12 : String := "i2c-12\tsmbus \tSMBus stub driver\tN/A\n"

/-- Enumeration output with no stub-driver line. -/
def outNoStub : String := "i2c-0\tsmbus \tIntel adapter at e000\n"

/-- Device nodes for buses 0 and 7, no alias present. -/
def fsBase : Fs := [("/dev/i2c-0", .node), ("/dev/i2c-7", .node)]

/-- Device nodes for buses 1 and 12, no alias present. -/
def fsWith12 : Fs := [("/dev/i2c-1", .node), ("/dev/i2c-12", .node)]

/-- A valid (non-dangling) alias `/dev/i2c-5` already points at bus 1 while
the stub sits at bus 7. -/
def fsPreLink : Fs :=
  [("/dev/i2c-5", .symlink "/dev/i2c-1"), ("/dev/i2c-1", .node),
   ("/dev/i2c-7", .node)]

/-- A host shell on which the force-unload of `i2c-stub` exits 1 and every
other command exits 0. -/
def envUnloadFail : Env := fun c =>
  if c = "modprobe -r i2c-stub" then
    { returncode := 1, stdout := "", stderr := "Module i2c_stub is not currently loaded" }
  else { returncode := 0, stdout := outStub7, stderr := "" }

/-! ### Claims -/

/-- C1: the claim says that a first matching enumeration line with first
token `i2c-<N>` makes `realBusId()` return `N`. The code computes
`int(tok.strip('i2c-'))`, and `str.strip` removes every leading and trailing
character drawn from the set `i`, `2`, `c`, `-` — including the digit `2` of
the bus number itself. On the token `i2c-12` this yields `int("1") = 1`, so
after a fully successful `open(3, [0x1C])` the stored real bus id is 1, not
12, while the link target (built from the unstripped token) is
`/dev/i2c-12` and the transport descriptor is opened on the wrong node
`/dev/i2c-1`. This is a slip against the documented intent ("identify the
bus i2c-stub"): the evaluation below exhibits it. -/
theorem c1_realbus_parse_bug :
    pyStrip "i2c-12" "i2c-" = "1" ∧
    (pyOpen (mkEnv outStub12) initBus ⟨fsWith12, []⟩ 3 [28]).1 = .ok () ∧
    pyRealBus (pyOpen (mkEnv outStub12) initBus ⟨fsWith12, []⟩ 3 [28]).2.1 =
      some 1 ∧
    pyRealBus (pyOpen (mkEnv outStub12) initBus ⟨fsWith12, []⟩ 3 [28]).2.1 ≠
      some 12 ∧
    pyRealBusPath (pyOpen (mkEnv outStub12) initBus ⟨fsWith12, []⟩ 3 [28]).2.1 =
      "/dev/i2c-12" ∧
    (pyOpen (mkEnv outStub12) initBus ⟨fsWith12, []⟩ 3 [28]).2.1.fd =
      some "/dev/i2c-1" := by
  decide

/-- C2 counterexample: on a marker-free enumeration output, the raised
provisioning error carries the message `SMBus stub driver not found`, which
is not the string `stub driver not found` the claim states. -/
theorem c2_message_counterexample :
    (pyOpen (mkEnv outNoStub) initBus ⟨fsBase, []⟩ 3 [28]).1 =
      .error (.fakeI2c "SMBus stub driver not found") ∧
    "SMBus stub driver not found" ≠ "stub driver not found" ∧
    fsLookup (pyOpen (mkEnv outNoStub) initBus ⟨fsBase, []⟩ 3 [28]).2.2.fs
      "/dev/i2c-3" = none := by
  decide

/-- C2 (amended): when the three module commands and the enumeration
command exit 0 and no enumeration line contains the marker
`SMBus stub driver`, `open()` raises the provisioning error with the
distinguished message `SMBus stub driver not found` (which contains the
claim's quoted phrase as a substring), the filesystem is untouched and no
alias link is created: the trace shows the run stopped at enumeration. -/
theorem c2_no_marker_raises (env : Env) (st : BusState) (w : W) (b : Int)
    (ds : List Nat)
    (h1 : (env "modprobe i2c-dev").returncode = 0)
    (h2 : (env "modprobe -r i2c-stub").returncode = 0)
    (h3 : (env (stubLoadCmd ds)).returncode = 0)
    (h4 : (env "i2cdetect -l").returncode = 0)
    (hnone : List.find? (fun l => pyIn "SMBus stub driver" l)
      (pySplitNl (env "i2cdetect -l").stdout) = none) :
    pyOpen env st w b ds =
      (.error (.fakeI2c "SMBus stub driver not found"),
        { st with bus := some b, devices_list := some ds },
        ⟨w.fs, w.trace ++ ["modprobe i2c-dev", "modprobe -r i2c-stub",
          stubLoadCmd ds, "i2cdetect -l"]⟩) ∧
    pyIn "stub driver not found" "SMBus stub driver not found" = true := by
  refine ⟨?_, by decide⟩
  have hadd := add_fake_good env
    { st with bus := some b, devices_list := some ds } w ds h1 h2 h3
  have hsym := symlink_not_found env
    { st with bus := some b, devices_list := some ds }
    (pushTrace (pushTrace (pushTrace w "modprobe i2c-dev")
      "modprobe -r i2c-stub") (stubLoadCmd ds)) h4 hnone
  simp only [pyOpen]
  rw [hadd, hsym]
  simp [pushTrace]

/-- The world component of `__symlink_i2c_stub` always records exactly one
more command, the enumeration, whatever the outcome. -/
theorem symlink_world_trace (env : Env) (st : BusState) (w : W) :
    (symlink_i2c_stub env st w).2.2.trace = w.trace ++ ["i2cdetect -l"] := by
  unfold symlink_i2c_stub
  split
  next e w1 heq =>
    have hw : w1 = pushTrace w "i2cdetect -l" := by
      have h2 := congrArg Prod.snd heq
      rw [shellRunRaise_world] at h2
      exact h2.symm
    simp [hw, pushTrace]
  next out w1 heq =>
    have hw : w1 = pushTrace w "i2cdetect -l" := by
      have h2 := congrArg Prod.snd heq
      rw [shellRunRaise_world] at h2
      exact h2.symm
    subst hw
    split
    · simp [pushTrace]
    · split
      · simp [pushTrace]
      · split
        · simp [pushTrace]
        · dsimp only
          split <;> simp [pushTrace]

/-- When the three module commands exit 0, the trace of a whole `open()`
run is exactly the four commands, in order, whatever happens afterwards. -/
theorem open_world_trace (env : Env) (st : BusState) (w : W) (b : Int)
    (ds : List Nat)
    (h1 : (env "modprobe i2c-dev").returncode = 0)
    (h2 : (env "modprobe -r i2c-stub").returncode = 0)
    (h3 : (env (stubLoadCmd ds)).returncode = 0) :
    (pyOpen env st w b ds).2.2.trace =
      w.trace ++ ["modprobe i2c-dev", "modprobe -r i2c-stub", stubLoadCmd ds,
        "i2cdetect -l"] := by
  have hadd := add_fake_good env
    { st with bus := some b, devices_list := some ds } w ds h1 h2 h3
  simp only [pyOpen]
  rw [hadd]
  rcases hsym : symlink_i2c_stub env { st with bus := some b, devices_list := some ds }
      (pushTrace (pushTrace (pushTrace w "modprobe i2c-dev") "modprobe -r i2c-stub")
        (stubLoadCmd ds)) with ⟨res, st1, w1⟩
  have htr : w1.trace =
      (pushTrace (pushTrace (pushTrace w "modprobe i2c-dev") "modprobe -r i2c-stub")
        (stubLoadCmd ds)).trace ++ ["i2cdetect -l"] := by
    have hh := symlink_world_trace env
      { st with bus := some b, devices_list := some ds }
      (pushTrace (pushTrace (pushTrace w "modprobe i2c-dev") "modprobe -r i2c-stub")
        (stubLoadCmd ds))
    rw [hsym] at hh
    exact hh
  cases res with
  | error e => simp [htr, pushTrace]
  | ok u =>
    have hsw : (smbus_open st1 w1).2.2.trace = w1.trace := by
      rw [smbus_open_world]
    simp only []
    rw [hsw, htr]
    simp [pushTrace]

/-- `__add_fake_devices` when the first module command fails. -/
theorem add_fake_fail1 (env : Env) (st : BusState) (w : W) (ds : List Nat)
    (h1 : (env "modprobe i2c-dev").returncode ≠ 0) :
    add_fake_devices env st w ds =
      (.error (.fakeI2c (cmdFailMsg "modprobe i2c-dev"
          (env "modprobe i2c-dev").returncode
          (env "modprobe i2c-dev").stderr)),
        st, pushTrace w "modprobe i2c-dev") := by
  simp [add_fake_devices, shellRunRaise, h1]

/-- `__add_fake_devices` when the force-unload fails. -/
theorem add_fake_fail2 (env : Env) (st : BusState) (w : W) (ds : List Nat)
    (h1 : (env "modprobe i2c-dev").returncode = 0)
    (h2 : (env "modprobe -r i2c-stub").returncode ≠ 0) :
    add_fake_devices env st w ds =
      (.error (.fakeI2c (cmdFailMsg "modprobe -r i2c-stub"
          (env "modprobe -r i2c-stub").returncode
          (env "modprobe -r i2c-stub").stderr)),
        st, pushTrace (pushTrace w "modprobe i2c-dev") "modprobe -r i2c-stub") := by
  simp [add_fake_devices, shellRunRaise, h1, h2]

/-- `__add_fake_devices` when the stub load fails. -/
theorem add_fake_fail3 (env : Env) (st : BusState) (w : W) (ds : List Nat)
    (h1 : (env "modprobe i2c-dev").returncode = 0)
    (h2 : (env "modprobe -r i2c-stub").returncode = 0)
    (h3 : (env (stubLoadCmd ds)).returncode ≠ 0) :
    add_fake_devices env st w ds =
      (.error (.fakeI2c (cmdFailMsg (stubLoadCmd ds)
          (env (stubLoadCmd ds)).returncode
          (env (stubLoadCmd ds)).stderr)),
        st, pushTrace (pushTrace (pushTrace w "modprobe i2c-dev")
          "modprobe -r i2c-stub") (stubLoadCmd ds)) := by
  simp [add_fake_devices, shellRunRaise, h1, h2, h3]

/-- `__symlink_i2c_stub` when the enumeration command fails. -/
theorem symlink_fail4 (env : Env) (st : BusState) (w : W)
    (h4 : (env "i2cdetect -l").returncode ≠ 0) :
    symlink_i2c_stub env st w =
      (.error (.fakeI2c (cmdFailMsg "i2cdetect -l"
          (env "i2cdetect -l").returncode
          (env "i2cdetect -l").stderr)),
        st, pushTrace w "i2cdetect -l") := by
  simp [symlink_i2c_stub, shellRunRaise, h4]

/-- `open()` forwards any failure of its provisioning phase. -/
theorem pyOpen_err (env : Env) (st : BusState) (w : W) (b : Int)
    (ds : List Nat) (e : PyError) (st1 : BusState) (w1 : W)
    (h : add_fake_devices env { st with bus := some b, devices_list := some ds }
      w ds = (.error e, st1, w1)) :
    pyOpen env st w b ds = (.error e, st1, w1) := by
  simp only [pyOpen]
  rw [h]

/-- C2 witness: the amended discovery-failure theorem applied to a concrete
marker-free host. -/
theorem c2_no_marker_raises_witness :
    pyOpen (mkEnv outNoStub) initBus ⟨fsBase, []⟩ 3 [28] =
      (.error (.fakeI2c "SMBus stub driver not found"),
        { initBus with bus := some 3, devices_list := some [28] },
        ⟨fsBase, ["modprobe i2c-dev", "modprobe -r i2c-stub",
          stubLoadCmd [28], "i2cdetect -l"]⟩) ∧
    pyIn "stub driver not found" "SMBus stub driver not found" = true :=
  c2_no_marker_raises (mkEnv outNoStub) initBus ⟨fsBase, []⟩ 3 [28]
    (by decide) (by decide) (by decide) (by decide) (by decide)

/-- C4 counterexample: on a host where the force-unload of `i2c-stub` exits
nonzero, `open()` does not proceed to the stub load: it aborts with the
provisioning error for the unload command, and the trace shows that the
load command was never issued. -/
theorem c4_unload_counterexample :
    (pyOpen envUnloadFail initBus ⟨fsBase, []⟩ 3 [28]).1 =
      .error (.fakeI2c (cmdFailMsg "modprobe -r i2c-stub" 1
        "Module i2c_stub is not currently loaded")) ∧
    (pyOpen envUnloadFail initBus ⟨fsBase, []⟩ 3 [28]).2.2.trace =
      ["modprobe i2c-dev", "modprobe -r i2c-stub"] ∧
    ((pyOpen envUnloadFail initBus ⟨fsBase, []⟩ 3 [28]).2.2.trace.contains
      (stubLoadCmd [28])) = false := by
  decide

/-- C4 (amended): the force-unload of `i2c-stub` is issued before the stub
load — whenever the load command is issued at all, the unload precedes it
in the command trace — and when the unload exits 0 `open()` proceeds to the
load regardless of the unload's output; but a nonzero exit status of the
unload is not ignored: it aborts `open()` with the provisioning error for
that command, before the load command is ever issued. -/
theorem c4_unload_order (env : Env) (st : BusState) (w : W) (b : Int)
    (ds : List Nat)
    (h1 : (env "modprobe i2c-dev").returncode = 0) :
    ((env "modprobe -r i2c-stub").returncode = 0 →
      ∃ t, (pyOpen env st w b ds).2.2.trace =
        w.trace ++ ["modprobe i2c-dev", "modprobe -r i2c-stub",
          stubLoadCmd ds] ++ t) ∧
    ((env "modprobe -r i2c-stub").returncode ≠ 0 →
      pyOpen env st w b ds =
        (.error (.fakeI2c (cmdFailMsg "modprobe -r i2c-stub"
            (env "modprobe -r i2c-stub").returncode
            (env "modprobe -r i2c-stub").stderr)),
          { st with bus := some b, devices_list := some ds },
          ⟨w.fs, w.trace ++ ["modprobe i2c-dev", "modprobe -r i2c-stub"]⟩)) := by
  constructor
  · intro h2
    by_cases h3 : (env (stubLoadCmd ds)).returncode = 0
    · exact ⟨["i2cdetect -l"], by
        rw [open_world_trace env st w b ds h1 h2 h3]; simp⟩
    · refine ⟨[], ?_⟩
      rw [pyOpen_err env st w b ds _ _ _
        (add_fake_fail3 env _ w ds h1 h2 h3)]
      simp [pushTrace]
  · intro h2
    rw [pyOpen_err env st w b ds _ _ _
      (add_fake_fail2 env _ w ds h1 h2)]
    simp [pushTrace]

/-- C4 witness: the amended theorem applied to a concrete host where all
commands succeed; the trace shows unload before load. -/
theorem c4_unload_order_witness :
    ∃ t, (pyOpen (mkEnv outStub7) initBus ⟨fsBase, []⟩ 3 [28]).2.2.trace =
      ([] : List String) ++ ["modprobe i2c-dev", "modprobe -r i2c-stub",
        stubLoadCmd [28]] ++ t :=
  (c4_unload_order (mkEnv outStub7) initBus ⟨fsBase, []⟩ 3 [28]
    (by decide)).1 (by decide)

/-- C8: during `open()`, every external command that exits nonzero aborts
the whole sequence at that point — the final trace stops at the failing
command, so no later step runs, and the filesystem is untouched — and the
raised provisioning error message carries the failed command's text, its
exit status and its stderr output (via `cmdFailMsg`). One conjunct per
command of the sequence. -/
theorem c8_cmd_failure_aborts (env : Env) (st : BusState) (w : W) (b : Int)
    (ds : List Nat) :
    ((env "modprobe i2c-dev").returncode ≠ 0 →
      pyOpen env st w b ds =
        (.error (.fakeI2c (cmdFailMsg "modprobe i2c-dev"
            (env "modprobe i2c-dev").returncode
            (env "modprobe i2c-dev").stderr)),
          { st with bus := some b, devices_list := some ds },
          ⟨w.fs, w.trace ++ ["modprobe i2c-dev"]⟩)) ∧
    ((env "modprobe i2c-dev").returncode = 0 →
      (env "modprobe -r i2c-stub").returncode ≠ 0 →
      pyOpen env st w b ds =
        (.error (.fakeI2c (cmdFailMsg "modprobe -r i2c-stub"
            (env "modprobe -r i2c-stub").returncode
            (env "modprobe -r i2c-stub").stderr)),
          { st with bus := some b, devices_list := some ds },
          ⟨w.fs, w.trace ++ ["modprobe i2c-dev", "modprobe -r i2c-stub"]⟩)) ∧
    ((env "modprobe i2c-dev").returncode = 0 →
      (env "modprobe -r i2c-stub").returncode = 0 →
      (env (stubLoadCmd ds)).returncode ≠ 0 →
      pyOpen env st w b ds =
        (.error (.fakeI2c (cmdFailMsg (stubLoadCmd ds)
            (env (stubLoadCmd ds)).returncode
            (env (stubLoadCmd ds)).stderr)),
          { st with bus := some b, devices_list := some ds },
          ⟨w.fs, w.trace ++ ["modprobe i2c-dev", "modprobe -r i2c-stub",
            stubLoadCmd ds]⟩)) ∧
    ((env "modprobe i2c-dev").returncode = 0 →
      (env "modprobe -r i2c-stub").returncode = 0 →
      (env (stubLoadCmd ds)).returncode = 0 →
      (env "i2cdetect -l").returncode ≠ 0 →
      pyOpen env st w b ds =
        (.error (.fakeI2c (cmdFailMsg "i2cdetect -l"
            (env "i2cdetect -l").returncode
            (env "i2cdetect -l").stderr)),
          { st with bus := some b, devices_list := some ds },
          ⟨w.fs, w.trace ++ ["modprobe i2c-dev", "modprobe -r i2c-stub",
            stubLoadCmd ds, "i2cdetect -l"]⟩)) := by
  refine ⟨fun h1 => ?_, fun h1 h2 => ?_, fun h1 h2 h3 => ?_,
    fun h1 h2 h3 h4 => ?_⟩
  · rw [pyOpen_err env st w b ds _ _ _ (add_fake_fail1 env _ w ds h1)]
    simp [pushTrace]
  · rw [pyOpen_err env st w b ds _ _ _ (add_fake_fail2 env _ w ds h1 h2)]
    simp [pushTrace]
  · rw [pyOpen_err env st w b ds _ _ _ (add_fake_fail3 env _ w ds h1 h2 h3)]
    simp [pushTrace]
  · have hadd := add_fake_good env
      { st with bus := some b, devices_list := some ds } w ds h1 h2 h3
    rw [symlink_fail4 env _ _ h4] at hadd
    rw [pyOpen_err env st w b ds _ _ _ hadd]
    simp [pushTrace]

/-- A host where bus enumeration itself fails with a permission error. -/
def envDetectFail : Env := fun c =>
  if c = "i2cdetect -l" then
    { returncode := 1, stdout := "", stderr := "permission denied" }
  else { returncode := 0, stdout := "", stderr := "" }

/-- C8 witness: the abort theorem applied to a concrete host where the
enumeration command fails after the three module commands succeed. -/
theorem c8_cmd_failure_aborts_witness :
    pyOpen envDetectFail initBus ⟨fsBase, []⟩ 3 [28] =
      (.error (.fakeI2c (cmdFailMsg "i2cdetect -l" 1 "permission denied")),
        { initBus with bus := some 3, devices_list := some [28] },
        ⟨fsBase, ["modprobe i2c-dev", "modprobe -r i2c-stub",
          stubLoadCmd [28], "i2cdetect -l"]⟩) :=
  (c8_cmd_failure_aborts envDetectFail initBus ⟨fsBase, []⟩ 3 [28]).2.2.2
    (by decide) (by decide) (by decide) (by decide)

theorem devp_ne (s : String) : "/dev/i2c-" ++ s ≠ "" :=
  devPrefixed_ne_empty "/dev/i2c-" s '/' ['d','e','v','/','i','2','c','-'] rfl

theorem devp2_ne (s : String) : "/dev/" ++ s ≠ "" :=
  devPrefixed_ne_empty "/dev/" s '/' ['d','e','v','/'] rfl

/-- C6: when `open()` reaches alias creation (all four commands exit 0 and
discovery parses the first matching line's first token) and the alias path
for the logical bus already holds a symbolic link whose target does not
exist, the dangling link is deleted and the new link to the discovered bus
node is created in its place: the final filesystem holds the fresh link
where the stale one sat, with the stale binding removed. -/
theorem c6_dangling_cleanup (env : Env) (st : BusState) (w : W) (b : Int)
    (ds : List Nat) (line tok : String) (rest : List String) (rb : Int)
    (tgt : String)
    (h1 : (env "modprobe i2c-dev").returncode = 0)
    (h2 : (env "modprobe -r i2c-stub").returncode = 0)
    (h3 : (env (stubLoadCmd ds)).returncode = 0)
    (h4 : (env "i2cdetect -l").returncode = 0)
    (hfind : List.find? (fun l => pyIn "SMBus stub driver" l)
      (pySplitNl (env "i2cdetect -l").stdout) = some line)
    (htok : pySplitWS line = tok :: rest)
    (hparse : pyInt (pyStrip tok "i2c-") = some rb)
    (hlink : fsLookup w.fs ("/dev/i2c-" ++ toString b) = some (.symlink tgt))
    (hdang : osPathExists w.fs tgt = false) :
    (pyOpen env st w b ds).2.2.fs =
      ("/dev/i2c-" ++ toString b, FsEntry.symlink ("/dev/" ++ tok)) ::
        fsRemove w.fs ("/dev/i2c-" ++ toString b) := by
  have hadd := add_fake_good env
    { st with bus := some b, devices_list := some ds } w ds h1 h2 h3
  have hsym := symlink_found env
    { st with bus := some b, devices_list := some ds }
    (pushTrace (pushTrace (pushTrace w "modprobe i2c-dev") "modprobe -r i2c-stub")
      (stubLoadCmd ds)) line tok rest rb h4 hfind htok hparse
  simp only [pyOpen]
  rw [hadd, hsym]
  simp only [pushTrace, pyStrOptInt]
  rw [aliasTry_dangling w.fs ("/dev/i2c-" ++ toString b) tok tgt hlink hdang]
  simp only []
  rw [smbus_open_world]

/-- A dangling alias `/dev/i2c-3` pointing at a non-existent bus 9. -/
def fsDangling : Fs :=
  [("/dev/i2c-3", .symlink "/dev/i2c-9"), ("/dev/i2c-7", .node)]

/-- C6 witness: a concrete run over a dangling pre-existing alias. -/
theorem c6_dangling_cleanup_witness :
    (pyOpen (mkEnv outStub7) initBus ⟨fsDangling, []⟩ 3 [28]).2.2.fs =
      ("/dev/i2c-" ++ toString (3 : Int),
        FsEntry.symlink ("/dev/" ++ "i2c-7")) ::
        fsRemove fsDangling ("/dev/i2c-" ++ toString (3 : Int)) :=
  c6_dangling_cleanup (mkEnv outStub7) initBus ⟨fsDangling, []⟩ 3 [28]
    "i2c-7\tsmbus \tSMBus stub driver\tN/A" "i2c-7"
    ["smbus", "SMBus", "stub", "driver", "N/A"] 7 "/dev/i2c-9"
    (by decide) (by decide) (by decide) (by decide) (by decide) (by decide)
    (by decide) (by decide) (by decide)

/-- C7: when `open()` reaches alias creation and the alias path already
holds a symbolic link whose target exists, the whole filesystem is left
untouched by `open()` — no unlink and no symlink creation happen — even
though the link's target `tgt` is arbitrary (it need not be the newly
discovered bus node). -/
theorem c7_valid_alias_untouched (env : Env) (st : BusState) (w : W) (b : Int)
    (ds : List Nat) (line tok : String) (rest : List String) (rb : Int)
    (tgt : String)
    (h1 : (env "modprobe i2c-dev").returncode = 0)
    (h2 : (env "modprobe -r i2c-stub").returncode = 0)
    (h3 : (env (stubLoadCmd ds)).returncode = 0)
    (h4 : (env "i2cdetect -l").returncode = 0)
    (hfind : List.find? (fun l => pyIn "SMBus stub driver" l)
      (pySplitNl (env "i2cdetect -l").stdout) = some line)
    (htok : pySplitWS line = tok :: rest)
    (hparse : pyInt (pyStrip tok "i2c-") = some rb)
    (hlink : fsLookup w.fs ("/dev/i2c-" ++ toString b) = some (.symlink tgt))
    (hval : osPathExists w.fs tgt = true) :
    (pyOpen env st w b ds).2.2.fs = w.fs := by
  have hadd := add_fake_good env
    { st with bus := some b, devices_list := some ds } w ds h1 h2 h3
  have hsym := symlink_found env
    { st with bus := some b, devices_list := some ds }
    (pushTrace (pushTrace (pushTrace w "modprobe i2c-dev") "modprobe -r i2c-stub")
      (stubLoadCmd ds)) line tok rest rb h4 hfind htok hparse
  simp only [pyOpen]
  rw [hadd, hsym]
  simp only [pushTrace, pyStrOptInt]
  rw [aliasTry_valid w.fs ("/dev/i2c-" ++ toString b) tok tgt hlink hval]
  simp only []
  rw [smbus_open_world]

/-- C7 witness: a concrete run over a valid pre-existing alias that points
at a bus other than the discovered stub bus; the filesystem is untouched. -/
theorem c7_valid_alias_untouched_witness :
    (pyOpen (mkEnv outStub7) initBus ⟨fsPreLink, []⟩ 5 [48]).2.2.fs =
      fsPreLink :=
  c7_valid_alias_untouched (mkEnv outStub7) initBus ⟨fsPreLink, []⟩ 5 [48]
    "i2c-7\tsmbus \tSMBus stub driver\tN/A" "i2c-7"
    ["smbus", "SMBus", "stub", "driver", "N/A"] 7 "/dev/i2c-1"
    (by decide) (by decide) (by decide) (by decide) (by decide) (by decide)
    (by decide) (by decide) (by decide)

/-- C9 counterexample: with a valid alias `/dev/i2c-5` already pointing at
`/dev/i2c-1`, a fully successful `open(5, [0x30])` leaves the alias
pointing at `/dev/i2c-1`, not at `realBusPath() = /dev/i2c-7`: the claim's
"pointing at realBusPath()" fails whenever a valid link pre-exists. -/
theorem c9_alias_target_counterexample :
    (pyOpen (mkEnv outStub7) initBus ⟨fsPreLink, []⟩ 5 [48]).1 = .ok () ∧
    pyBusPath (pyOpen (mkEnv outStub7) initBus ⟨fsPreLink, []⟩ 5 [48]).2.1 =
      "/dev/i2c-5" ∧
    pyRealBusPath (pyOpen (mkEnv outStub7) initBus ⟨fsPreLink, []⟩ 5 [48]).2.1 =
      "/dev/i2c-7" ∧
    fsLookup (pyOpen (mkEnv outStub7) initBus ⟨fsPreLink, []⟩ 5 [48]).2.2.fs
      "/dev/i2c-5" = some (.symlink "/dev/i2c-1") ∧
    fsLookup (pyOpen (mkEnv outStub7) initBus ⟨fsPreLink, []⟩ 5 [48]).2.2.fs
      "/dev/i2c-5" ≠
      some (.symlink (pyRealBusPath
        (pyOpen (mkEnv outStub7) initBus ⟨fsPreLink, []⟩ 5 [48]).2.1)) := by
  decide

/-- C9 (amended): after a successful `open(b, ds)` in which no entry
pre-existed at the alias path, `bus_path()` returns exactly
`/dev/i2c-<b>` and that path is a symbolic link pointing at
`real_bus_path()` (the node `/dev/<tok>` of the discovered stub bus); when
a valid symbolic link pre-exists at the alias path it is left untouched
instead (see the counterexample), per the deliberate no-clobber policy. -/
theorem c9_accessor_amended (env : Env) (st : BusState) (w : W) (b : Int)
    (ds : List Nat) (line tok : String) (rest : List String) (rb : Int)
    (h1 : (env "modprobe i2c-dev").returncode = 0)
    (h2 : (env "modprobe -r i2c-stub").returncode = 0)
    (h3 : (env (stubLoadCmd ds)).returncode = 0)
    (h4 : (env "i2cdetect -l").returncode = 0)
    (hfind : List.find? (fun l => pyIn "SMBus stub driver" l)
      (pySplitNl (env "i2cdetect -l").stdout) = some line)
    (htok : pySplitWS line = tok :: rest)
    (hparse : pyInt (pyStrip tok "i2c-") = some rb)
    (hpre : fsLookup w.fs ("/dev/i2c-" ++ toString b) = none)
    (hdev : osPathExists
      (("/dev/i2c-" ++ toString b, FsEntry.symlink ("/dev/" ++ tok)) :: w.fs)
      ("/dev/i2c-" ++ toString rb) = true) :
    ∃ stF wF, pyOpen env st w b ds = (.ok (), stF, wF) ∧
      pyBusPath stF = "/dev/i2c-" ++ toString b ∧
      pyRealBusPath stF = "/dev/" ++ tok ∧
      fsLookup wF.fs ("/dev/i2c-" ++ toString b) =
        some (.symlink (pyRealBusPath stF)) := by
  have hadd := add_fake_good env
    { st with bus := some b, devices_list := some ds } w ds h1 h2 h3
  have hsym := symlink_found env
    { st with bus := some b, devices_list := some ds }
    (pushTrace (pushTrace (pushTrace w "modprobe i2c-dev") "modprobe -r i2c-stub")
      (stubLoadCmd ds)) line tok rest rb h4 hfind htok hparse
  simp only [pyOpen]
  rw [hadd, hsym]
  simp only [pushTrace, pyStrOptInt]
  rw [aliasTry_none w.fs ("/dev/i2c-" ++ toString b) tok hpre]
  simp only [smbus_open]
  rw [if_pos]
  · refine ⟨_, _, rfl, ?_, ?_, ?_⟩
    · simp [pyBusPath, devp_ne (toString b)]
    · simp [pyRealBusPath, devp2_ne tok]
    · simp [fsLookup, pyRealBusPath, devp2_ne tok]
  · exact hdev

/-- Device node for bus 7 only; no alias present. -/
def fsOnly7 : Fs := [("/dev/i2c-7", .node)]

/-- C9 witness: a concrete fresh-alias run of `open(5, [0x30])`. -/
theorem c9_accessor_amended_witness :
    ∃ stF wF, pyOpen (mkEnv outStub7) initBus ⟨fsOnly7, []⟩ 5 [48] =
      (.ok (), stF, wF) ∧
      pyBusPath stF = "/dev/i2c-" ++ toString (5 : Int) ∧
      pyRealBusPath stF = "/dev/" ++ "i2c-7" ∧
      fsLookup wF.fs ("/dev/i2c-" ++ toString (5 : Int)) =
        some (.symlink (pyRealBusPath stF)) :=
  c9_accessor_amended (mkEnv outStub7) initBus ⟨fsOnly7, []⟩ 5 [48]
    "i2c-7\tsmbus \tSMBus stub driver\tN/A" "i2c-7"
    ["smbus", "SMBus", "stub", "driver", "N/A"] 7
    (by decide) (by decide) (by decide) (by decide) (by decide) (by decide)
    (by decide) (by decide) (by decide)

theorem del_fake_state (env : Env) (st : BusState) (w : W) :
    (del_fake_devices env st w).1 = st := by
  unfold del_fake_devices del_fake_devices_try
  rcases h : st.bus_link with _ | l
  · simp [h]
  · simp only [h]
    rcases h2 : osUnlink ((shellRun env w "modprobe -r i2c-stub").2).fs l
      with _ | fs2 <;> simp [h2]

theorem del_fake_fs_nolink (env : Env) (st : BusState) (w : W)
    (h : st.bus_link = none) :
    (del_fake_devices env st w).2.fs = w.fs := by
  unfold del_fake_devices del_fake_devices_try
  simp [h, shellRun, pushTrace]

theorem del_fake_fs_lookup (env : Env) (st : BusState) (w : W) (l : String)
    (h : st.bus_link = some l) :
    fsLookup (del_fake_devices env st w).2.fs l = none := by
  unfold del_fake_devices del_fake_devices_try
  simp only [h]
  rcases h2 : osUnlink ((shellRun env w "modprobe -r i2c-stub").2).fs l
    with _ | fs2
  · simp only [osUnlink] at h2
    rcases h3 : fsLookup ((shellRun env w "modprobe -r i2c-stub").2).fs l
      with _ | e
    · simp [shellRun, pushTrace] at h3 ⊢
    · rw [h3] at h2
      simp at h2
  · simp only [osUnlink] at h2
    split at h2
    · simp at h2
      subst h2
      simp [fsLookup_fsRemove_self]
    · simp at h2

theorem del_fake_fs_gone (env : Env) (st : BusState) (w : W) (l : String)
    (h : st.bus_link = some l) (h2 : fsLookup w.fs l = none) :
    (del_fake_devices env st w).2.fs = w.fs := by
  unfold del_fake_devices del_fake_devices_try
  simp only [h]
  have h3 : osUnlink ((shellRun env w "modprobe -r i2c-stub").2).fs l = none := by
    simp [osUnlink, shellRun, pushTrace, h2]
  rw [h3]
  simp [shellRun, pushTrace]

theorem smbus_close_idem (st : BusState) :
    smbus_close (smbus_close st) = smbus_close st := by
  cases st
  rfl

theorem smbus_close_link (st : BusState) :
    (smbus_close st).bus_link = st.bus_link := rfl

/-- C3: `close()` never raises to its caller. The teardown body
(`__del_fake_devices`) is wrapped in a bare except whose handler discards
any failure (first conjunct: whatever error its try-block produces, the
caller of `close()` observes a normal return); the transport close is
modelled as infallible, per its opaque external contract. `close()` on a
never-opened instance returns normally (second conjunct), and a second
`close()` in a row is a no-op: it returns the same object state and leaves
the filesystem unchanged (third and fourth conjuncts); the quantification
over `st` covers partially-opened instances as well. -/
theorem c3_close_swallows (env : Env) (st : BusState) (w : W) :
    (∀ e st1 w1,
      del_fake_devices_try env (smbus_close st) w = (.error e, st1, w1) →
      pyClose env st w = (st1, w1)) ∧
    pyClose env initBus w = (initBus, pushTrace w "modprobe -r i2c-stub") ∧
    (pyClose env (pyClose env st w).1 (pyClose env st w).2).1 =
      (pyClose env st w).1 ∧
    (pyClose env (pyClose env st w).1 (pyClose env st w).2).2.fs =
      (pyClose env st w).2.fs := by
  refine ⟨?_, ?_, ?_, ?_⟩
  · intro e st1 w1 h
    simp only [pyClose, del_fake_devices]
    rw [h]
  · rfl
  · have h1 : (pyClose env st w).1 = smbus_close st := del_fake_state env _ w
    rw [h1]
    have h2 : (pyClose env (smbus_close st) (pyClose env st w).2).1 =
        smbus_close (smbus_close st) := del_fake_state env _ _
    rw [h2, smbus_close_idem]
  · have h1 : (pyClose env st w).1 = smbus_close st := del_fake_state env _ w
    rw [h1]
    rcases hl : st.bus_link with _ | l
    · exact del_fake_fs_nolink env _ _ (by exact hl)
    · have hgone : fsLookup (pyClose env st w).2.fs l = none :=
        del_fake_fs_lookup env _ w l (by exact hl)
      exact del_fake_fs_gone env _ _ l (by exact hl) hgone

/-- C3 witness: a concrete never-opened close whose teardown body raises
(`os.unlink(None)` is a `TypeError`) and is discarded. -/
theorem c3_close_swallows_witness :
    pyClose (mkEnv outStub7) initBus ⟨fsBase, []⟩ =
      (initBus, pushTrace ⟨fsBase, []⟩ "modprobe -r i2c-stub") :=
  (c3_close_swallows (mkEnv outStub7) initBus ⟨fsBase, []⟩).1
    (.typeError "unlink: path should be str, not None") initBus
    (pushTrace ⟨fsBase, []⟩ "modprobe -r i2c-stub") (by decide)

/-- C10: an empty device list is accepted: the stub load command is still
issued, with parameter string exactly `chip_addr=` followed by nothing, and
when that command exits 0 provisioning proceeds to discovery as normal —
the trace of the run is the usual four commands. (The witness exhibits a
concrete fully successful `open(3, [])` that creates the alias link.) -/
theorem c10_empty_list_accepted (env : Env) (st : BusState) (w : W) (b : Int)
    (h1 : (env "modprobe i2c-dev").returncode = 0)
    (h2 : (env "modprobe -r i2c-stub").returncode = 0) :
    stubLoadCmd [] = "modprobe i2c-stub chip_addr=" ∧
    ((env "modprobe i2c-stub chip_addr=").returncode = 0 →
      (pyOpen env st w b []).2.2.trace =
        w.trace ++ ["modprobe i2c-dev", "modprobe -r i2c-stub",
          "modprobe i2c-stub chip_addr=", "i2cdetect -l"]) := by
  refine ⟨by decide, fun h3 => ?_⟩
  exact open_world_trace env st w b [] h1 h2 h3

/-- C10 witness: a concrete fully successful `open(3, [])`: the load is
issued with the bare `chip_addr=` parameter, the run succeeds, and the
alias link is created. -/
theorem c10_empty_list_accepted_witness :
    (pyOpen (mkEnv outStub7) initBus ⟨fsBase, []⟩ 3 []).2.2.trace =
      ([] : List String) ++ ["modprobe i2c-dev", "modprobe -r i2c-stub",
        "modprobe i2c-stub chip_addr=", "i2cdetect -l"] ∧
    (pyOpen (mkEnv outStub7) initBus ⟨fsBase, []⟩ 3 []).1 = .ok () ∧
    fsLookup (pyOpen (mkEnv outStub7) initBus ⟨fsBase, []⟩ 3 []).2.2.fs
      "/dev/i2c-3" = some (.symlink "/dev/i2c-7") :=
  ⟨(c10_empty_list_accepted (mkEnv outStub7) initBus ⟨fsBase, []⟩ 3
      (by decide) (by decide)).2 (by decide), by decide, by decide⟩

/-- Spec-side lowercase hexadecimal digit table. -/
def specHexChar (n : Nat) : Char := "0123456789abcdef".data.getD n ' '

/-- Spec-side rendering of one address: lowercase hexadecimal with a `0x`
prefix, most significant digit first, stated independently of the model via
Mathlib's digit expansion. -/
def specHex (n : Nat) : String :=
  "0x" ++ String.mk
    (if n = 0 then ['0'] else ((Nat.digits 16 n).map specHexChar).reverse)

/-- Spec-side parameter string: `chip_addr=` followed by the addresses in
the given order, comma-separated with no spaces. -/
def specAddrParam (ds : List Nat) : String :=
  "chip_addr=" ++
    String.mk (List.intercalate [','] (ds.map fun n => (specHex n).data))

theorem hexChar_eq : ∀ n < 16, hexDigitChar n = specHexChar n := by decide

theorem hexDigitsAux_eq (fuel : Nat) : ∀ n, n ≤ fuel →
    hexDigitsAux (fuel + 1) n =
      (if n = 0 then ['0'] else ((Nat.digits 16 n).map hexDigitChar).reverse) := by
  induction fuel with
  | zero =>
    intro n hn
    interval_cases n
    rfl
  | succ fuel ih =>
    intro n hn
    by_cases hlt : n < 16
    · rcases Nat.eq_zero_or_pos n with h0 | hpos
      · subst h0
        rfl
      · rw [if_neg (Nat.pos_iff_ne_zero.mp hpos)]
        rw [Nat.digits_def' (by norm_num : (1:Nat) < 16) hpos]
        have hdiv : n / 16 = 0 := Nat.div_eq_of_lt hlt
        rw [hdiv]
        simp [hexDigitsAux, hlt, Nat.mod_eq_of_lt hlt]
    · have hge : 16 ≤ n := Nat.le_of_not_lt hlt
      have hne : n ≠ 0 := by omega
      have hpos : 0 < n := by omega
      rw [if_neg hne]
      have hstep : hexDigitsAux (fuel + 1 + 1) n =
          hexDigitsAux (fuel + 1) (n / 16) ++ [hexDigitChar (n % 16)] := by
        simp [hexDigitsAux, hlt]
      rw [hstep]
      have hdivle : n / 16 ≤ fuel := by
        have : n / 16 < n := Nat.div_lt_self hpos (by norm_num)
        omega
      rw [ih (n / 16) hdivle]
      have hdivne : n / 16 ≠ 0 := by
        have : 16 / 16 ≤ n / 16 := Nat.div_le_div_right hge
        simpa using Nat.pos_iff_ne_zero.mp (by omega : 0 < n / 16)
      rw [if_neg hdivne]
      rw [Nat.digits_def' (by norm_num : (1:Nat) < 16) hpos]
      simp

/-- The model's rendering of one address agrees with the spec-side one. -/
theorem pyHex_eq_specHex (n : Nat) : pyHex n = specHex n := by
  unfold pyHex specHex
  rw [hexDigitsAux_eq n n le_rfl]
  rcases Nat.eq_zero_or_pos n with h0 | hpos
  · subst h0; rfl
  · rw [if_neg (Nat.pos_iff_ne_zero.mp hpos),
      if_neg (Nat.pos_iff_ne_zero.mp hpos)]
    have : (Nat.digits 16 n).map hexDigitChar =
        (Nat.digits 16 n).map specHexChar := by
      apply List.map_congr_left
      intro d hd
      exact hexChar_eq d (Nat.digits_lt_base (by norm_num) hd)
    rw [this]

/-- The model's comma join agrees with `List.intercalate`. -/
theorem joinC_data (l : List String) :
    (joinC l).data = List.intercalate [','] (l.map String.data) := by
  induction l with
  | nil => rfl
  | cons s rest ih =>
    cases rest with
    | nil => simp [joinC, List.intercalate, List.intersperse]
    | cons t r =>
      have hj : joinC (s :: t :: r) = s ++ "," ++ joinC (t :: r) := rfl
      rw [hj]
      rw [String.data_append, String.data_append]
      rw [ih]
      simp [List.intercalate, List.intersperse, List.flatten]

/-- C5: for every device address list, the stub module-load command is
`modprobe i2c-stub ` followed by the spec-side parameter string —
`chip_addr=` then the addresses in the given order, each rendered as
lowercase hexadecimal with a `0x` prefix, comma-separated with no spaces —
and in particular for `[0x20, 0x50]` the command text ends in exactly
`chip_addr=0x20,0x50`. -/
theorem c5_addr_format (ds : List Nat) :
    stubLoadCmd ds = "modprobe i2c-stub " ++ specAddrParam ds ∧
    stubLoadCmd [32, 80] = "modprobe i2c-stub chip_addr=0x20,0x50" := by
  constructor
  · unfold stubLoadCmd listAddr specAddrParam
    have hsplit : ("modprobe i2c-stub chip_addr=" : String) =
        "modprobe i2c-stub " ++ "chip_addr=" := by decide
    rw [hsplit, String.append_assoc]
    congr 1
    congr 1
    have hmap : (ds.map pyHex).map String.data =
        ds.map (fun n => (specHex n).data) := by
      rw [List.map_map]
      apply List.map_congr_left
      intro a _
      simp [pyHex_eq_specHex a]
    apply String.ext
    rw [joinC_data, hmap]
  · decide
